import Mathlib

/-!
Shallow embedding of the vinyl-alert-api backend (src/main.py, src/models.py).

Modelling conventions:
* Database timestamps (`DateTime(timezone=True)`) are modelled as `Int`
  instants; the only operations the code performs on them are comparison,
  `max`, and assignment from "now", all order-theoretic.
* Monetary prices (`Optional[int]`) are `Option Int`.
* Listing `status` is stored as a plain `String` (the database column is a
  string; the aggregation view explicitly handles unknown statuses).
* A numeric path parameter is received as a string and converted with
  Python's `int(...)` inside `try/except ValueError`; we model the outcome
  of that conversion as `Option Int`, where `none` is the `ValueError`
  branch (a non-numeric identifier).
* `raise HTTPException(status_code=c, detail=d)` is modelled as
  `Except.error ⟨c, d⟩`; a handler that mutates the database returns the
  new database state on success. An error raised before `db.commit` leaves
  the state unchanged, which the `Except` shape captures by carrying no
  state in the error case.
* SQLAlchemy's `query(...).filter(cond).first()` over a table is modelled
  as `List.find?` over the corresponding list of rows.
-/

namespace VinylAlert

/-- Row of the `releases` table (src/models.py, class Release). -/
structure Release where
  id : Int
  artist_name : String
  album_title : String
  cover_image_url : Option String
  created_at : Int
deriving DecidableEq

/-- Row of the `listings` table (src/models.py, class Listing; the `price`
and `status` columns are added by migration 633144c54ee9). -/
structure Listing where
  id : Int
  release_id : Int
  source_slug : String
  source_product_title : String
  url : String
  price : Option Int
  status : String
  collected_at : Int
deriving DecidableEq

/-- Row of the `stores` table (src/models.py, class Store). -/
structure Store where
  id : Int
  name : String
  slug : String
  icon_url : String
deriving DecidableEq

/-- The whole database state: the three tables. -/
structure Db where
  releases : List Release
  listings : List Listing
  stores : List Store
deriving DecidableEq

/-- `HTTPException(status_code, detail)` (src/main.py raises). -/
structure ApiError where
  status_code : Nat
  detail : String
deriving DecidableEq

/-- Request body `ListingIn` (src/main.py): pydantic fills `price = None`
and `status = "ON_SALE"` when absent. -/
structure ListingIn where
  storeSlug : String
  sourceProductTitle : String
  url : String
  price : Option Int := none
  status : String := "ON_SALE"
deriving DecidableEq

/-- Request body `ListingUpdate` (src/main.py). Pydantic distinguishes a
field absent from the request from a field explicitly set to `null`:
`xSet` models `"x" in payload.model_fields_set`, and `x` is the value
(meaningful only when `xSet = true`; `none` is an explicit JSON null). -/
structure ListingUpdate where
  priceSet : Bool
  price : Option Int
  statusSet : Bool
  status : Option String
deriving DecidableEq

/-- Rows of `listings` owned by a release: the `Release.listings`
relationship (src/models.py, `back_populates="release"`). -/
def Db.releaseListings (db : Db) (rid : Int) : List Listing :=
  db.listings.filter (fun l => l.release_id = rid)

/-- `db.query(Release).filter(Release.id == rid).first()`. -/
def Db.findRelease (db : Db) (rid : Int) : Option Release :=
  db.releases.find? (fun r => r.id = rid)

/-- `db.query(Listing).filter(Listing.id == lid).first()`. -/
def Db.findListing (db : Db) (lid : Int) : Option Listing :=
  db.listings.find? (fun l => l.id = lid)

/-- `db.query(Store).filter(Store.slug == slug).first()`. -/
def Db.findStoreBySlug (db : Db) (slug : String) : Option Store :=
  db.stores.find? (fun s => s.slug = slug)

/-- `db.query(Store).filter(Store.id == sid).first()`. -/
def Db.findStoreById (db : Db) (sid : Int) : Option Store :=
  db.stores.find? (fun s => s.id = sid)

/-- `db.query(Listing).filter(Listing.source_slug == slug).count()`. -/
def Db.countListingsBySlug (db : Db) (slug : String) : Nat :=
  (db.listings.filter (fun l => l.source_slug = slug)).length

/-- The `status` block of `update_listing` (src/main.py lines 251-262),
run when `"status" in fields` with a non-null payload status `s`: set the
status if it differs, and when the new status is `SOLD_OUT` clear a
non-null price; the boolean tracks the `changed` flag. The caller raises
before this point when the payload status is an explicit null, so the
`none` branch is inert. -/
def applyStatusField (u : ListingUpdate) (lc : Listing × Bool) : Listing × Bool :=
  if u.statusSet then
    match u.status with
    | none => lc
    | some s =>
      let lc1 :=
        if lc.1.status ≠ s then ({ lc.1 with status := s }, true) else lc
      if s = "SOLD_OUT" then
        if lc1.1.price ≠ none then ({ lc1.1 with price := none }, true) else lc1
      else lc1
  else lc

/-- The `price` block of `update_listing` (src/main.py lines 264-274), run
when `"price" in fields`: an explicit null clears the price; a non-null
price is applied only when the (current, post-status-block) status is not
`SOLD_OUT` and it differs from the stored price. -/
def applyPriceField (u : ListingUpdate) (lc : Listing × Bool) : Listing × Bool :=
  if u.priceSet then
    match u.price with
    | none =>
      if lc.1.price ≠ none then ({ lc.1 with price := none }, true) else lc
    | some p =>
      if lc.1.status ≠ "SOLD_OUT" then
        if lc.1.price ≠ some p then ({ lc.1 with price := some p }, true) else lc
      else lc
  else lc

/-- The field-update core of `update_listing` (src/main.py lines 247-278)
on the listing it found: status block, then price block, then
`collected_at` refreshed exactly when the `changed` flag is set. -/
def updateListingFields (u : ListingUpdate) (now : Int) (l : Listing) : Listing :=
  let lc := applyPriceField u (applyStatusField u (l, false))
  if lc.2 then { lc.1 with collected_at := now } else lc.1

/-- `PATCH /listings/{listing_id}` (src/main.py, `update_listing`).
`lid?` is the outcome of `int(listing_id)` (`none` = `ValueError`).
Returns the updated listing together with the new database state. -/
def update_listing (lid? : Option Int) (u : ListingUpdate) (now : Int)
    (db : Db) : Except ApiError (Listing × Db) :=
  match lid? with
  | none => .error ⟨400, "invalid listing id"⟩
  | some lid =>
    match db.findListing lid with
    | none => .error ⟨404, "Listing not found"⟩
    | some l =>
      if u.statusSet ∧ u.status = none then
        .error ⟨400, "status cannot be null"⟩
      else
        let l' := updateListingFields u now l
        .ok (l', { db with
          listings := db.listings.map (fun x => if x.id = lid then l' else x) })

/-- `POST /releases/{release_id}/listings` (src/main.py, `add_listing`).
`rid?` is the outcome of `int(release_id)`; `newId` is the primary key the
database assigns and `now` the `server_default=func.now()` instant filling
`collected_at`. `Except.ok none` is the handler's bare `return None` (an
HTTP 200 with a null body). -/
def add_listing (rid? : Option Int) (payload : ListingIn) (newId : Int)
    (now : Int) (db : Db) : Except ApiError (Option Db) :=
  match rid? with
  | none => .ok none
  | some rid =>
    match db.findRelease rid with
    | none => .ok none
    | some r =>
      match db.findStoreBySlug payload.storeSlug with
      | none => .error ⟨400, "존재하지 않는 스토어입니다."⟩
      | some store =>
        let l : Listing :=
          { id := newId
            release_id := r.id
            source_slug := store.slug
            source_product_title := payload.sourceProductTitle
            url := payload.url
            price := payload.price
            status := payload.status
            collected_at := now }
        .ok (some { db with listings := db.listings ++ [l] })

/-- `DELETE /listings/{listing_id}` (src/main.py, `delete_listing`). -/
def delete_listing (lid? : Option Int) (db : Db) : Except ApiError Db :=
  match lid? with
  | none => .error ⟨400, "invalid listing id"⟩
  | some lid =>
    match db.findListing lid with
    | none => .error ⟨404, "Listing not found"⟩
    | some _ =>
      .ok { db with listings := db.listings.filter (fun l => l.id ≠ lid) }

/-- `DELETE /releases/{release_id}` (src/main.py, `delete_release`).
`db.delete(r)` with the `cascade="all, delete-orphan"` relationship of
src/models.py also removes the release's listings; the guard above it
means that set is empty whenever the branch is reached. -/
def delete_release (rid? : Option Int) (db : Db) : Except ApiError Db :=
  match rid? with
  | none => .error ⟨400, "invalid release id"⟩
  | some rid =>
    match db.findRelease rid with
    | none => .error ⟨404, "Release not found"⟩
    | some r =>
      if (db.releaseListings r.id).length > 0 then
        .error ⟨400, "먼저 해당 릴리즈의 판매처를 삭제해 주세요."⟩
      else
        .ok { db with
          releases := db.releases.filter (fun x => x.id ≠ rid)
          listings := db.listings.filter (fun l => l.release_id ≠ r.id) }

/-- `DELETE /stores/{store_id}` (src/main.py, `delete_store`): 404 when
the id is unknown, 400 carrying the referencing-listings count when any
listing references the store's slug. -/
def delete_store (sid? : Option Int) (db : Db) : Except ApiError Db :=
  match sid? with
  | none => .error ⟨400, "invalid store id"⟩
  | some sid =>
    match db.findStoreById sid with
    | none => .error ⟨404, "store not found"⟩
    | some store =>
      let cnt := db.countListingsBySlug store.slug
      if cnt > 0 then
        .error ⟨400, "store is referenced by " ++ toString cnt ++ " listings"⟩
      else
        .ok { db with stores := db.stores.filter (fun s => s.id ≠ sid) }

/-- `STATUS_PRIORITY.get(status, 99)` (src/main.py, `to_release_dict`):
`{"PREORDER": 0, "ON_SALE": 1, "SOLD_OUT": 2}` with default 99. -/
def STATUS_PRIORITY (status : String) : Nat :=
  if status = "PREORDER" then 0
  else if status = "ON_SALE" then 1
  else if status = "SOLD_OUT" then 2
  else 99

/-- The ordering induced by the sort key
`(STATUS_PRIORITY.get(l.status, 99), -l.collected_at.timestamp())` of
src/main.py: status priority ascending, then `collected_at` descending. -/
def listingLe (a b : Listing) : Prop :=
  STATUS_PRIORITY a.status < STATUS_PRIORITY b.status ∨
    (STATUS_PRIORITY a.status = STATUS_PRIORITY b.status ∧
      b.collected_at ≤ a.collected_at)

instance : DecidableRel listingLe := fun a b => by
  unfold listingLe; infer_instance

instance : IsTotal Listing listingLe where
  total a b := by
    unfold listingLe
    rcases lt_trichotomy (STATUS_PRIORITY a.status) (STATUS_PRIORITY b.status)
      with h | h | h
    · exact Or.inl (Or.inl h)
    · rcases le_total b.collected_at a.collected_at with h2 | h2
      · exact Or.inl (Or.inr ⟨h, h2⟩)
      · exact Or.inr (Or.inr ⟨h.symm, h2⟩)
    · exact Or.inr (Or.inl h)

instance : IsTrans Listing listingLe where
  trans a b c hab hbc := by
    unfold listingLe at *
    rcases hab with h1 | ⟨h1, h1'⟩ <;> rcases hbc with h2 | ⟨h2, h2'⟩
    · exact Or.inl (h1.trans h2)
    · exact Or.inl (h2 ▸ h1)
    · exact Or.inl (h1 ▸ h2)
    · exact Or.inr ⟨h1.trans h2, h2'.trans h1'⟩

/-- `sorted(r.listings, key=lambda l: (STATUS_PRIORITY.get(...), -l.collected_at.timestamp()))`
(src/main.py, `to_release_dict`): a stable sort under the key ordering,
modelled with insertion sort (which is stable and sorts by `listingLe`). -/
def sortListings (ls : List Listing) : List Listing :=
  List.insertionSort listingLe ls

/-- `max(l.collected_at for l in r.listings)` guarded by `if r.listings:`
(src/main.py, `to_release_dict` lines 110-112). -/
def latestCollectedAt (ls : List Listing) : Option Int :=
  match ls.map (fun l => l.collected_at) with
  | [] => none
  | t :: ts => some (ts.foldl max t)

/-- Response row built by `to_listing_dict` (src/main.py). The handler's
`latestCollectedAt: None` filler field is constant and omitted. -/
structure ListingDict where
  id : Int
  sourceName : String
  sourceProductTitle : String
  url : String
  collectedAt : Int
  imageUrl : String
  price : Option Int
  status : String
deriving DecidableEq

/-- `to_listing_dict` (src/main.py): resolve the store name and icon live
by slug; a missing store yields empty strings. -/
def to_listing_dict (l : Listing) (db : Db) : ListingDict :=
  let (store_name, store_icon) :=
    match db.findStoreBySlug l.source_slug with
    | some s => (s.name, s.icon_url)
    | none => ("", "")
  { id := l.id
    sourceName := store_name
    sourceProductTitle := l.source_product_title
    url := l.url
    collectedAt := l.collected_at
    imageUrl := store_icon
    price := l.price
    status := l.status }

/-- Response shape built by `to_release_dict` (src/main.py). -/
structure ReleaseDict where
  id : Int
  artistName : String
  albumTitle : String
  coverImageUrl : Option String
  latestCollectedAt : Option Int
  storesCount : Nat
  listings : List ListingDict
  collectedAt : Option Int
deriving DecidableEq

/-- `to_release_dict` (src/main.py): latest collection instant, sorted
listing rows, listing count. -/
def to_release_dict (r : Release) (db : Db) : ReleaseDict :=
  let ls := db.releaseListings r.id
  let sorted_ls := sortListings ls
  let listings := sorted_ls.map (fun l => to_listing_dict l db)
  { id := r.id
    artistName := r.artist_name
    albumTitle := r.album_title
    coverImageUrl := r.cover_image_url
    latestCollectedAt := latestCollectedAt ls
    storesCount := listings.length
    listings := listings
    collectedAt := some r.created_at }

/-- `GET /releases/{release_id}` (src/main.py, `get_release_by_id`): the
handler never raises; a non-numeric id or a missing release makes it
`return None` (an HTTP 200 with a null body), modelled as `Except.ok none`. -/
def get_release_by_id (rid? : Option Int) (db : Db) :
    Except ApiError (Option ReleaseDict) :=
  match rid? with
  | none => .ok none
  | some rid =>
    match db.findRelease rid with
    | none => .ok none
    | some r => .ok (some (to_release_dict r db))

/-! ### Core lemmas about the `update_listing` field logic -/

/-- The invariant of §3 of the spec: a sold-out listing has no price. -/
def soldOutNoPrice (l : Listing) : Prop :=
  l.status = "SOLD_OUT" → l.price = none

instance (l : Listing) : Decidable (soldOutNoPrice l) := by
  unfold soldOutNoPrice; infer_instance

theorem applyStatusField_fixed (u : ListingUpdate) (l : Listing) (c : Bool) :
    (applyStatusField u (l, c)).1.id = l.id ∧
    (applyStatusField u (l, c)).1.release_id = l.release_id ∧
    (applyStatusField u (l, c)).1.source_slug = l.source_slug ∧
    (applyStatusField u (l, c)).1.source_product_title = l.source_product_title ∧
    (applyStatusField u (l, c)).1.url = l.url ∧
    (applyStatusField u (l, c)).1.collected_at = l.collected_at := by
  unfold applyStatusField
  by_cases hs : u.statusSet <;> simp [hs]
  split <;> (try split_ifs) <;> simp

theorem applyPriceField_fixed (u : ListingUpdate) (l : Listing) (c : Bool) :
    (applyPriceField u (l, c)).1.id = l.id ∧
    (applyPriceField u (l, c)).1.release_id = l.release_id ∧
    (applyPriceField u (l, c)).1.source_slug = l.source_slug ∧
    (applyPriceField u (l, c)).1.source_product_title = l.source_product_title ∧
    (applyPriceField u (l, c)).1.url = l.url ∧
    (applyPriceField u (l, c)).1.status = l.status ∧
    (applyPriceField u (l, c)).1.collected_at = l.collected_at := by
  unfold applyPriceField
  by_cases hp : u.priceSet <;> simp [hp]
  split <;> (try split_ifs) <;> simp

/-- Dichotomy for one pass of the field blocks: either the `changed` flag
is `false` and the listing is untouched, or it is `true` and the price or
the status genuinely differs from its original value. -/
theorem updFields_dichotomy (u : ListingUpdate) (l : Listing) :
    ((applyPriceField u (applyStatusField u (l, false))).2 = false ∧
      (applyPriceField u (applyStatusField u (l, false))).1 = l) ∨
    ((applyPriceField u (applyStatusField u (l, false))).2 = true ∧
      ((applyPriceField u (applyStatusField u (l, false))).1.price ≠ l.price ∨
       (applyPriceField u (applyStatusField u (l, false))).1.status ≠ l.status)) := by
  obtain ⟨ps, p, ss, s⟩ := u
  cases ss <;> cases ps <;> cases s <;> cases p <;>
    simp [applyStatusField, applyPriceField] <;>
    split_ifs <;> simp_all <;> tauto

/-- `updateListingFields` never touches the identity and text fields. -/
theorem updateListingFields_fixed (u : ListingUpdate) (now : Int) (l : Listing) :
    (updateListingFields u now l).id = l.id ∧
    (updateListingFields u now l).release_id = l.release_id ∧
    (updateListingFields u now l).source_slug = l.source_slug ∧
    (updateListingFields u now l).source_product_title = l.source_product_title ∧
    (updateListingFields u now l).url = l.url := by
  obtain ⟨ps, p, ss, s⟩ := u
  cases ss <;> cases ps <;> cases s <;> cases p <;>
    simp [updateListingFields, applyStatusField, applyPriceField] <;>
    split_ifs <;> simp_all

/-- If nothing effectively changed, `updateListingFields` is the identity
(in particular `collected_at` is untouched); if something changed, the
price or the status differs from before and `collected_at` becomes `now`. -/
theorem updateListingFields_dichotomy (u : ListingUpdate) (now : Int) (l : Listing) :
    updateListingFields u now l = l ∨
    ((updateListingFields u now l).collected_at = now ∧
      ((updateListingFields u now l).price ≠ l.price ∨
       (updateListingFields u now l).status ≠ l.status)) := by
  rcases updFields_dichotomy u l with ⟨hc, hl⟩ | ⟨hc, hd⟩
  · left
    unfold updateListingFields
    simp [hc, hl]
  · right
    unfold updateListingFields
    simp [hc]
    exact hd

/-- Converse direction feed: when the two passes report no change the
result is the input, extracted at the `updateListingFields` level. -/
theorem updateListingFields_of_eq (u : ListingUpdate) (now : Int) (l : Listing)
    (h : (updateListingFields u now l).price = l.price)
    (h2 : (updateListingFields u now l).status = l.status) :
    updateListingFields u now l = l := by
  rcases updateListingFields_dichotomy u now l with he | ⟨-, hd⟩
  · exact he
  · rcases hd with hd | hd <;> exact absurd (by assumption) hd

/-- An explicit null price always clears the stored price. -/
theorem updateListingFields_price_null (u : ListingUpdate) (now : Int) (l : Listing)
    (hp : u.priceSet = true) (hn : u.price = none) :
    (updateListingFields u now l).price = none := by
  obtain ⟨ps, p, ss, s⟩ := u
  cases ss <;> cases s <;> simp_all <;>
    simp [updateListingFields, applyStatusField, applyPriceField] <;>
    split_ifs <;> simp_all

/-- Closed form: the status block is inert when the request carries no
(meaningful) status field. -/
theorem applyStatusField_id (u : ListingUpdate) (lc : Listing × Bool)
    (h : u.statusSet = false ∨ u.status = none) :
    applyStatusField u lc = lc := by
  unfold applyStatusField
  rcases h with h | h
  · simp [h]
  · simp [h]

/-- Closed form of the status block for a non-null requested status. -/
theorem applyStatusField_some_eq (u : ListingUpdate) (s : String) (l : Listing)
    (c : Bool) (hss : u.statusSet = true) (hs : u.status = some s) :
    applyStatusField u (l, c) =
      ({ l with
          status := s
          price := if s = "SOLD_OUT" then none else l.price },
        c || decide (l.status ≠ s) ||
          (decide (s = "SOLD_OUT") && decide (l.price ≠ none))) := by
  obtain ⟨lid, lrel, lslug, ltitle, lurl, lprice, lstatus, lcol⟩ := l
  unfold applyStatusField
  simp only [hss, hs, if_true]
  by_cases h1 : lstatus = s <;> by_cases h2 : s = "SOLD_OUT" <;>
    by_cases h3 : lprice = none <;> simp_all

/-- Closed form: the price block is inert when the field is absent. -/
theorem applyPriceField_id (u : ListingUpdate) (lc : Listing × Bool)
    (h : u.priceSet = false) : applyPriceField u lc = lc := by
  unfold applyPriceField
  simp [h]

/-- Closed form of the price block for an explicit null price. -/
theorem applyPriceField_null_eq (u : ListingUpdate) (l : Listing) (c : Bool)
    (hp : u.priceSet = true) (hv : u.price = none) :
    applyPriceField u (l, c) =
      ({ l with price := none }, c || decide (l.price ≠ none)) := by
  obtain ⟨lid, lrel, lslug, ltitle, lurl, lprice, lstatus, lcol⟩ := l
  unfold applyPriceField
  simp only [hp, hv, if_true]
  by_cases h1 : lprice = none <;> simp_all

/-- Closed form of the price block for an explicit non-null price. -/
theorem applyPriceField_some_eq (u : ListingUpdate) (l : Listing) (c : Bool)
    (p : Int) (hp : u.priceSet = true) (hv : u.price = some p) :
    applyPriceField u (l, c) =
      if l.status = "SOLD_OUT" then (l, c)
      else ({ l with price := some p }, c || decide (l.price ≠ some p)) := by
  obtain ⟨lid, lrel, lslug, ltitle, lurl, lprice, lstatus, lcol⟩ := l
  unfold applyPriceField
  simp only [hp, hv, if_true]
  by_cases h1 : lstatus = "SOLD_OUT" <;> by_cases h2 : lprice = some p <;>
    simp_all

/-- `updateListingFields` written without the `let`, for rewriting. -/
theorem updateListingFields_eq_core (u : ListingUpdate) (now : Int) (l : Listing) :
    updateListingFields u now l =
      if (applyPriceField u (applyStatusField u (l, false))).2 then
        { (applyPriceField u (applyStatusField u (l, false))).1 with
          collected_at := now }
      else (applyPriceField u (applyStatusField u (l, false))).1 := rfl

/-- The final status is whatever the two field blocks produced. -/
theorem updateListingFields_status_eq (u : ListingUpdate) (now : Int) (l : Listing) :
    (updateListingFields u now l).status =
      (applyPriceField u (applyStatusField u (l, false))).1.status := by
  rw [updateListingFields_eq_core]
  split_ifs <;> rfl

/-- The final price is whatever the two field blocks produced. -/
theorem updateListingFields_price_eq (u : ListingUpdate) (now : Int) (l : Listing) :
    (updateListingFields u now l).price =
      (applyPriceField u (applyStatusField u (l, false))).1.price := by
  rw [updateListingFields_eq_core]
  split_ifs <;> rfl

/-- A requested non-null status always lands verbatim. -/
theorem updateListingFields_status_of_set (u : ListingUpdate) (now : Int)
    (l : Listing) (s : String) (hss : u.statusSet = true)
    (hs : u.status = some s) :
    (updateListingFields u now l).status = s := by
  rw [updateListingFields_status_eq, applyStatusField_some_eq u s l false hss hs]
  obtain ⟨-, -, -, -, -, hst, -⟩ :=
    applyPriceField_fixed u
      { l with status := s, price := if s = "SOLD_OUT" then none else l.price }
      (false || decide (l.status ≠ s) ||
        (decide (s = "SOLD_OUT") && decide (l.price ≠ none)))
  simp_all

/-- Without a status field the stored status survives the update. -/
theorem updateListingFields_status_of_unset (u : ListingUpdate) (now : Int)
    (l : Listing) (h : u.statusSet = false ∨ u.status = none) :
    (updateListingFields u now l).status = l.status := by
  rw [updateListingFields_status_eq, applyStatusField_id u (l, false) h]
  obtain ⟨-, -, -, -, -, hst, -⟩ := applyPriceField_fixed u l false
  exact hst

/-- An explicit non-null price lands whenever the resulting (post-update)
status is not `SOLD_OUT`. -/
theorem updateListingFields_price_applied (u : ListingUpdate) (now : Int)
    (l : Listing) (p0 : Int) (hp : u.priceSet = true) (hv : u.price = some p0)
    (hs : (updateListingFields u now l).status ≠ "SOLD_OUT") :
    (updateListingFields u now l).price = some p0 := by
  by_cases hid : u.statusSet = false ∨ u.status = none
  · have hls : l.status ≠ "SOLD_OUT" := by
      rw [updateListingFields_status_of_unset u now l hid] at hs
      exact hs
    rw [updateListingFields_price_eq, applyStatusField_id u (l, false) hid,
      applyPriceField_some_eq u l false p0 hp hv]
    simp [hls]
  · push_neg at hid
    obtain ⟨hss, hsn⟩ := hid
    obtain ⟨s, hsv⟩ := Option.ne_none_iff_exists'.mp hsn
    have hfs := updateListingFields_status_of_set u now l s
      (by simpa using hss) hsv
    have h2 : s ≠ "SOLD_OUT" := by rw [hfs] at hs; exact hs
    rw [updateListingFields_price_eq,
      applyStatusField_some_eq u s l false (by simpa using hss) hsv,
      applyPriceField_some_eq u _ _ p0 hp hv]
    simp [h2]

/-- A request status of `SOLD_OUT` forces the resulting price to null, no
matter what price the same request carried. -/
theorem updateListingFields_soldout_clears (u : ListingUpdate) (now : Int)
    (l : Listing) (hs : u.statusSet = true) (hv : u.status = some "SOLD_OUT") :
    (updateListingFields u now l).price = none ∧
    (updateListingFields u now l).status = "SOLD_OUT" := by
  obtain ⟨ps, p, ss, s⟩ := u
  cases ps <;> cases p <;> simp_all <;>
    simp [updateListingFields, applyStatusField, applyPriceField] <;>
    split_ifs <;> simp_all

/-- With no status field in the request, a non-null price aimed at a
sold-out listing is silently ignored: the whole update is a no-op. -/
theorem updateListingFields_price_ignored (u : ListingUpdate) (now : Int)
    (l : Listing) (p0 : Int) (hss : u.statusSet = false) (hp : u.priceSet = true)
    (hv : u.price = some p0) (hs : l.status = "SOLD_OUT") :
    updateListingFields u now l = l := by
  obtain ⟨ps, p, ss, s⟩ := u
  simp_all [updateListingFields, applyStatusField, applyPriceField]

/-- The price block is inert on a listing that already carries the
requested price outcome. -/
theorem applyPriceField_noop (u : ListingUpdate) (l' : Listing)
    (h : u.priceSet = true →
      (u.price = none → l'.price = none) ∧
      (∀ p, u.price = some p → l'.status ≠ "SOLD_OUT" → l'.price = some p)) :
    applyPriceField u (l', false) = (l', false) := by
  by_cases hp : u.priceSet
  · cases hpv : u.price with
    | none =>
      rw [applyPriceField_null_eq u l' false hp hpv]
      have hpn := (h hp).1 hpv
      obtain ⟨lid, lrel, lslug, ltitle, lurl, lprice, lstatus, lcol⟩ := l'
      simp_all
    | some p =>
      rw [applyPriceField_some_eq u l' false p hp hpv]
      by_cases hls : l'.status = "SOLD_OUT"
      · simp [hls]
      · have hpv' := (h hp).2 p hpv hls
        obtain ⟨lid, lrel, lslug, ltitle, lurl, lprice, lstatus, lcol⟩ := l'
        simp_all
  · exact applyPriceField_id u _ (by simpa using hp)

/-- Re-running the two field blocks on the result of an update reports no
change and returns it untouched (the idempotence core). -/
theorem updFields_idem (u : ListingUpdate) (now : Int) (l : Listing) :
    applyPriceField u (applyStatusField u (updateListingFields u now l, false)) =
      (updateListingFields u now l, false) := by
  have hprice : u.priceSet = true →
      (u.price = none → (updateListingFields u now l).price = none) ∧
      (∀ p, u.price = some p → (updateListingFields u now l).status ≠ "SOLD_OUT" →
        (updateListingFields u now l).price = some p) := by
    intro hp
    exact ⟨fun hpv => updateListingFields_price_null u now l hp hpv,
      fun p hpv hst => updateListingFields_price_applied u now l p hp hpv hst⟩
  by_cases hid : u.statusSet = false ∨ u.status = none
  · rw [applyStatusField_id u _ hid]
    exact applyPriceField_noop u _ hprice
  · push_neg at hid
    obtain ⟨hss, hsn⟩ := hid
    have hss' : u.statusSet = true := by simpa using hss
    obtain ⟨s, hsv⟩ := Option.ne_none_iff_exists'.mp hsn
    have hfs := updateListingFields_status_of_set u now l s hss' hsv
    have hpn : s = "SOLD_OUT" → (updateListingFields u now l).price = none :=
      fun h2 =>
        (updateListingFields_soldout_clears u now l hss' (by rw [hsv, h2])).1
    generalize hgen : updateListingFields u now l = l' at hfs hpn hprice ⊢
    have hstat : applyStatusField u (l', false) = (l', false) := by
      rw [applyStatusField_some_eq u s l' false hss' hsv]
      by_cases h2 : s = "SOLD_OUT"
      · have hpn' := hpn h2
        obtain ⟨lid, lrel, lslug, ltitle, lurl, lprice, lstatus, lcol⟩ := l'
        simp_all
      · obtain ⟨lid, lrel, lslug, ltitle, lurl, lprice, lstatus, lcol⟩ := l'
        simp_all
    rw [hstat]
    exact applyPriceField_noop u l' hprice

/-- Idempotence at the `updateListingFields` level: the second run finds
nothing to change and in particular does not touch `collected_at`. -/
theorem updateListingFields_idem (u : ListingUpdate) (now now2 : Int)
    (l : Listing) :
    updateListingFields u now2 (updateListingFields u now l) =
      updateListingFields u now l := by
  conv_lhs => rw [updateListingFields_eq_core]
  rw [updFields_idem u now l]
  simp

/-- Anatomy of a successful `update_listing` call. -/
theorem update_listing_ok (lid : Int) (u : ListingUpdate) (now : Int) (db : Db)
    (l l' : Listing) (db' : Db) (hl : db.findListing lid = some l)
    (h : update_listing (some lid) u now db = .ok (l', db')) :
    l' = updateListingFields u now l ∧
    db' = { db with
      listings := db.listings.map (fun x => if x.id = lid then l' else x) } ∧
    ¬(u.statusSet = true ∧ u.status = none) := by
  unfold update_listing at h
  simp only [hl] at h
  split_ifs at h with hg
  simp only [Except.ok.injEq, Prod.mk.injEq] at h
  obtain ⟨h1, h2⟩ := h
  refine ⟨h1.symm, ?_, hg⟩
  rw [← h2, h1]

/-- A failed lookup makes `update_listing` fail with 404. -/
theorem update_listing_404 (lid : Int) (u : ListingUpdate) (now : Int) (db : Db)
    (hl : db.findListing lid = none) :
    update_listing (some lid) u now db = .error ⟨404, "Listing not found"⟩ := by
  unfold update_listing
  simp only [hl]

/-- The listing a successful `update_listing` call found keeps its id. -/
theorem update_listing_ok_id (u : ListingUpdate) (now : Int) (l : Listing) :
    (updateListingFields u now l).id = l.id :=
  (updateListingFields_fixed u now l).1

/-- `find?` by id over the write-back map finds the written listing. -/
theorem find?_map_writeback (ls : List Listing) (lid : Int) (l l' : Listing)
    (hfind : ls.find? (fun x => x.id = lid) = some l) (hid : l'.id = lid) :
    (ls.map (fun x => if x.id = lid then l' else x)).find?
      (fun x => x.id = lid) = some l' := by
  induction ls with
  | nil => simp at hfind
  | cons a t ih =>
    by_cases ha : a.id = lid
    · simp [List.find?_cons, ha, hid]
    · rw [List.find?_cons_of_neg _ (by simp [ha])] at hfind
      simp only [List.map_cons]
      rw [if_neg ha, List.find?_cons_of_neg _ (by simp [ha])]
      exact ih hfind

/-- Writing the same listing back twice is the same as writing it once. -/
theorem map_writeback_idem (ls : List Listing) (lid : Int) (l' : Listing) :
    ((ls.map (fun x => if x.id = lid then l' else x)).map
      (fun x => if x.id = lid then l' else x)) =
      ls.map (fun x => if x.id = lid then l' else x) := by
  rw [List.map_map]
  apply List.map_congr_left
  intro a _
  by_cases ha : a.id = lid <;> simp [ha]

/-- The id a successful lookup matched. -/
theorem Db.findListing_id (db : Db) (lid : Int) (l : Listing)
    (h : db.findListing lid = some l) : l.id = lid := by
  unfold Db.findListing at h
  simpa using List.find?_some h

/-! ### Claim theorems -/

/-- C3: in `update_listing`, an explicit null price clears the stored
price; an explicit non-null price is applied exactly when the effective
(post-update) status is not `SOLD_OUT`, and is silently ignored — with the
call still succeeding — otherwise; and a requested `SOLD_OUT` status
forces the final price to null regardless of the price carried by the same
request. -/
theorem C3_price_status_semantics (lid : Int) (u : ListingUpdate) (now : Int)
    (db : Db) (l : Listing) (hl : db.findListing lid = some l)
    (hg : ¬(u.statusSet = true ∧ u.status = none)) :
    update_listing (some lid) u now db =
      .ok (updateListingFields u now l, { db with
        listings := db.listings.map
          (fun x => if x.id = lid then updateListingFields u now l else x) }) ∧
    (u.priceSet = true → u.price = none →
      (updateListingFields u now l).price = none) ∧
    (∀ p, u.priceSet = true → u.price = some p →
      (updateListingFields u now l).status ≠ "SOLD_OUT" →
      (updateListingFields u now l).price = some p) ∧
    (u.statusSet = true → u.status = some "SOLD_OUT" →
      (updateListingFields u now l).price = none) ∧
    (∀ p, u.statusSet = false → u.priceSet = true → u.price = some p →
      l.status = "SOLD_OUT" → updateListingFields u now l = l) := by
  refine ⟨?_, ?_, ?_, ?_, ?_⟩
  · unfold update_listing
    simp only [hl]
    rw [if_neg hg]
  · exact fun hp hv => updateListingFields_price_null u now l hp hv
  · exact fun p hp hv hst => updateListingFields_price_applied u now l p hp hv hst
  · exact fun hss hsv => (updateListingFields_soldout_clears u now l hss hsv).1
  · exact fun p hss hp hv hst =>
      updateListingFields_price_ignored u now l p hss hp hv hst

/-- C4: a successful `update_listing` stamps `collected_at` with the
current time exactly when the price or the status effectively changed; a
no-op update returns the stored listing unchanged, `collected_at`
included. -/
theorem C4_collected_at_bump_iff (lid : Int) (u : ListingUpdate) (now : Int)
    (db : Db) (l l' : Listing) (db' : Db)
    (hl : db.findListing lid = some l)
    (h : update_listing (some lid) u now db = .ok (l', db')) :
    ((l'.price ≠ l.price ∨ l'.status ≠ l.status) → l'.collected_at = now) ∧
    ((l'.price = l.price ∧ l'.status = l.status) → l' = l) := by
  obtain ⟨h1, -, -⟩ := update_listing_ok lid u now db l l' db' hl h
  subst h1
  rcases updateListingFields_dichotomy u now l with he | ⟨hc, hd⟩
  · rw [he]
    exact ⟨fun hx => by rcases hx with hx | hx <;> exact absurd rfl hx,
      fun _ => rfl⟩
  · exact ⟨fun _ => hc, fun hx => by rcases hd with hy | hy <;> simp_all⟩

/-- C10: `update_listing` is idempotent — replaying the same payload on
the state a successful call produced succeeds, reports the very same
listing (price, status and `collected_at` untouched) and leaves the
database state exactly as it was, whatever instant the replay runs at. -/
theorem C10_update_listing_idempotent (lid : Int) (u : ListingUpdate)
    (now now2 : Int) (db : Db) (l' : Listing) (db' : Db)
    (h : update_listing (some lid) u now db = .ok (l', db')) :
    update_listing (some lid) u now2 db' = .ok (l', db') := by
  cases hfl : db.findListing lid with
  | none =>
    rw [update_listing_404 lid u now db hfl] at h
    exact absurd h (by simp)
  | some l =>
    obtain ⟨h1, h2, hg⟩ := update_listing_ok lid u now db l l' db' hfl h
    have hid : l'.id = lid := by
      rw [h1, update_listing_ok_id]
      exact Db.findListing_id db lid l hfl
    have hfl' : db'.findListing lid = some l' := by
      rw [h2]
      unfold Db.findListing at hfl ⊢
      exact find?_map_writeback db.listings lid l l' hfl hid
    have hidem : updateListingFields u now2 l' = l' := by
      rw [h1]
      exact updateListingFields_idem u now now2 l
    unfold update_listing
    simp only [hfl']
    rw [if_neg hg, hidem]
    subst h2
    simp [map_writeback_idem db.listings lid l']

/-- One field-update pass keeps the sold-out-implies-no-price invariant. -/
theorem updateListingFields_preserves_inv (u : ListingUpdate) (now : Int)
    (l : Listing) (hinv : soldOutNoPrice l) :
    soldOutNoPrice (updateListingFields u now l) := by
  intro hst
  by_cases hid : u.statusSet = false ∨ u.status = none
  · rw [updateListingFields_status_of_unset u now l hid] at hst
    have hpn : l.price = none := hinv hst
    rw [updateListingFields_price_eq, applyStatusField_id u (l, false) hid]
    by_cases hp : u.priceSet
    · cases hpv : u.price with
      | none => rw [applyPriceField_null_eq u l false hp hpv]
      | some p =>
        rw [applyPriceField_some_eq u l false p hp hpv]
        simp [hst, hpn]
    · rw [applyPriceField_id u _ (by simpa using hp)]
      exact hpn
  · push_neg at hid
    obtain ⟨hss, hsn⟩ := hid
    have hss' : u.statusSet = true := by simpa using hss
    obtain ⟨s, hsv⟩ := Option.ne_none_iff_exists'.mp hsn
    have hfs := updateListingFields_status_of_set u now l s hss' hsv
    rw [hfs] at hst
    exact (updateListingFields_soldout_clears u now l hss'
      (by rw [hsv, hst])).1

/-- The invariant over a whole database state. -/
def listingsInv (db : Db) : Prop :=
  ∀ x ∈ db.listings, soldOutNoPrice x

instance (db : Db) : Decidable (listingsInv db) := by
  unfold listingsInv; infer_instance

/-! ### Fixtures used by witnesses and counterexamples -/

def storeW : Store :=
  { id := 1, name := "Seoul Vinyl", slug := "sv", icon_url := "sv.png" }

def releaseW : Release :=
  { id := 1, artist_name := "A", album_title := "B",
    cover_image_url := none, created_at := 0 }

def listingW : Listing :=
  { id := 1, release_id := 1, source_slug := "sv",
    source_product_title := "LP", url := "http", price := some 100,
    status := "ON_SALE", collected_at := 5 }

def dbW : Db :=
  { releases := [releaseW], listings := [listingW], stores := [storeW] }

/-- A price-only update payload. -/
def updW : ListingUpdate :=
  { priceSet := true, price := some 200, statusSet := false, status := none }

/-- The listing `updW` at time 50 produces out of `listingW`. -/
def listingW' : Listing :=
  { listingW with price := some 200, collected_at := 50 }

def dbW' : Db := { dbW with listings := [listingW'] }

/-- A payload driving the listing into `SOLD_OUT` while also asking for a
price in the same request. -/
def updSO : ListingUpdate :=
  { priceSet := true, price := some 999, statusSet := true,
    status := some "SOLD_OUT" }

def listingSO : Listing :=
  { listingW with status := "SOLD_OUT", price := none, collected_at := 80 }

def dbSO : Db := { dbW with listings := [listingSO] }

/-! ### C1 -/

/-- C1 as written is false: `add_listing` copies the payload's price and
status verbatim, so creating a listing with `status = SOLD_OUT` and a
non-null price succeeds and violates the invariant immediately after
creation. -/
theorem C1_counterexample :
    add_listing (some 1)
        { storeSlug := "sv", sourceProductTitle := "LP", url := "http",
          price := some 15000, status := "SOLD_OUT" } 2 7 dbW =
      .ok (some { dbW with listings := dbW.listings ++
        [{ id := 2, release_id := 1, source_slug := "sv",
           source_product_title := "LP", url := "http", price := some 15000,
           status := "SOLD_OUT", collected_at := 7 }] }) ∧
    ¬ soldOutNoPrice
        { id := 2, release_id := 1, source_slug := "sv",
          source_product_title := "LP", url := "http", price := some 15000,
          status := "SOLD_OUT", collected_at := 7 } := by
  constructor
  · rfl
  · decide

/-- C1 (amended): every `update_listing` call preserves the invariant
that a sold-out listing has a null price, and `add_listing` preserves it
exactly when the creation payload itself satisfies it (the handler stores
the payload's price and status verbatim). -/
theorem C1_soldout_invariant (lid rid : Int) (u : ListingUpdate)
    (payload : ListingIn) (newId now : Int) (db : Db) :
    (∀ l' db', update_listing (some lid) u now db = .ok (l', db') →
      listingsInv db → listingsInv db') ∧
    (∀ db', add_listing (some rid) payload newId now db = .ok (some db') →
      listingsInv db → (payload.status = "SOLD_OUT" → payload.price = none) →
      listingsInv db') := by
  constructor
  · intro l' db' h hall
    cases hfl : db.findListing lid with
    | none =>
      rw [update_listing_404 lid u now db hfl] at h
      exact absurd h (by simp)
    | some l =>
      obtain ⟨h1, h2, -⟩ := update_listing_ok lid u now db l l' db' hfl h
      intro x hx
      rw [h2] at hx
      simp only [List.mem_map] at hx
      obtain ⟨y, hy, hxy⟩ := hx
      by_cases hyid : y.id = lid
      · rw [if_pos hyid] at hxy
        subst hxy
        rw [h1]
        exact updateListingFields_preserves_inv u now l
          (hall l (by
            unfold Db.findListing at hfl
            exact List.mem_of_find?_eq_some hfl))
      · rw [if_neg hyid] at hxy
        subst hxy
        exact hall y hy
  · intro db' h hall hpayload
    cases hr : db.findRelease rid with
    | none =>
      unfold add_listing at h
      simp only [hr] at h
      exact absurd h (by simp)
    | some r =>
      cases hs : db.findStoreBySlug payload.storeSlug with
      | none =>
        unfold add_listing at h
        simp only [hr, hs] at h
        exact absurd h (by simp)
      | some store =>
        unfold add_listing at h
        simp only [hr, hs, Except.ok.injEq, Option.some.injEq] at h
        intro x hx
        rw [← h] at hx
        simp only [List.mem_append, List.mem_singleton] at hx
        rcases hx with hx | hx
        · exact hall x hx
        · subst hx
          exact hpayload

/-- C1 witness: both parts applied to concrete states — an update driving
`listingW` into `SOLD_OUT` keeps the invariant, and a clean creation
keeps it too. -/
theorem C1_witness : listingsInv dbSO ∧
    listingsInv { dbW with listings := dbW.listings ++
      [{ id := 2, release_id := 1, source_slug := "sv",
         source_product_title := "LP2", url := "http2", price := some 300,
         status := "ON_SALE", collected_at := 9 }] } :=
  ⟨(C1_soldout_invariant 1 1 updSO
      { storeSlug := "sv", sourceProductTitle := "LP2", url := "http2",
        price := some 300, status := "ON_SALE" } 2 80 dbW).1 listingSO dbSO
      rfl (by decide),
   (C1_soldout_invariant 1 1 updSO
      { storeSlug := "sv", sourceProductTitle := "LP2", url := "http2",
        price := some 300, status := "ON_SALE" } 2 9 dbW).2 _ rfl
      (by decide) (by decide)⟩

/-! ### C2 -/

/-- C2 as written is false: for an absent release id the handler does not
fail with a 404 `NotFoundError` — it returns a successful null response
(`return None`, an HTTP 200 with body `null`). -/
theorem C2_counterexample :
    add_listing (some 1)
        { storeSlug := "sv", sourceProductTitle := "LP", url := "http" } 1 0
        { releases := [], listings := [], stores := [storeW] } =
      Except.ok none ∧
    ¬ ∃ e : ApiError,
      add_listing (some 1)
          { storeSlug := "sv", sourceProductTitle := "LP", url := "http" } 1 0
          { releases := [], listings := [], stores := [storeW] } =
        Except.error e := by
  refine ⟨rfl, ?_⟩
  rintro ⟨e, he⟩
  rw [show add_listing (some 1)
      { storeSlug := "sv", sourceProductTitle := "LP", url := "http" } 1 0
      { releases := [], listings := [], stores := [storeW] } =
      Except.ok none from rfl] at he
  exact absurd he (by simp)

/-- C2 (amended): `add_listing` returns a successful null response when
the release id is non-numeric or no release carries it; it fails with a
400 validation error when the release exists but the store slug is
unknown; and it creates the listing and succeeds exactly when both the
release and the store exist. -/
theorem C2_add_listing_outcomes (payload : ListingIn) (newId now : Int)
    (db : Db) :
    add_listing none payload newId now db = .ok none ∧
    (∀ rid, db.findRelease rid = none →
      add_listing (some rid) payload newId now db = .ok none) ∧
    (∀ rid r, db.findRelease rid = some r →
      db.findStoreBySlug payload.storeSlug = none →
      add_listing (some rid) payload newId now db =
        .error ⟨400, "존재하지 않는 스토어입니다."⟩) ∧
    (∀ rid r store, db.findRelease rid = some r →
      db.findStoreBySlug payload.storeSlug = some store →
      add_listing (some rid) payload newId now db =
        .ok (some { db with listings := db.listings ++
          [{ id := newId, release_id := r.id, source_slug := store.slug,
             source_product_title := payload.sourceProductTitle,
             url := payload.url, price := payload.price,
             status := payload.status, collected_at := now }] })) := by
  refine ⟨rfl, ?_, ?_, ?_⟩
  · intro rid hr
    unfold add_listing
    simp only [hr]
  · intro rid r hr hs
    unfold add_listing
    simp only [hr, hs]
  · intro rid r store hr hs
    unfold add_listing
    simp only [hr, hs]

/-- C2 witness: the three hypothesised outcomes exercised on `dbW`
(release 1 and store "sv" exist) and on an unknown release id 42. -/
theorem C2_witness :
    add_listing (some 42)
        { storeSlug := "sv", sourceProductTitle := "LP2", url := "h" } 2 9
        dbW = .ok none ∧
    add_listing (some 1)
        { storeSlug := "nope", sourceProductTitle := "LP2", url := "h" } 2 9
        dbW = .error ⟨400, "존재하지 않는 스토어입니다."⟩ ∧
    add_listing (some 1)
        { storeSlug := "sv", sourceProductTitle := "LP2", url := "h" } 2 9
        dbW = .ok (some { dbW with listings := dbW.listings ++
          [{ id := 2, release_id := 1, source_slug := "sv",
             source_product_title := "LP2", url := "h", price := none,
             status := "ON_SALE", collected_at := 9 }] }) :=
  ⟨(C2_add_listing_outcomes
      { storeSlug := "sv", sourceProductTitle := "LP2", url := "h" } 2 9
      dbW).2.1 42 rfl,
   (C2_add_listing_outcomes
      { storeSlug := "nope", sourceProductTitle := "LP2", url := "h" } 2 9
      dbW).2.2.1 1 releaseW rfl rfl,
   (C2_add_listing_outcomes
      { storeSlug := "sv", sourceProductTitle := "LP2", url := "h" } 2 9
      dbW).2.2.2 1 releaseW storeW rfl rfl⟩

/-! ### C9 -/

/-- C9 as written is false: `GET /releases/{id}` with a non-numeric id
(the `int(...)` `ValueError` branch) returns a successful null response,
not a validation failure. -/
theorem C9_counterexample :
    get_release_by_id none dbW = Except.ok none ∧
    ¬ ∃ e : ApiError, get_release_by_id none dbW = Except.error e := by
  refine ⟨rfl, ?_⟩
  rintro ⟨e, he⟩
  rw [show get_release_by_id none dbW = Except.ok none from rfl] at he
  exact absurd he (by simp)

/-- C9 (amended): on a non-numeric path identifier the DELETE and PATCH
handlers fail with a 400 validation error, but `GET /releases/{id}` and
`POST /releases/{id}/listings` instead return a successful null
response. -/
theorem C9_non_numeric_ids (db : Db) (payload : ListingIn)
    (u : ListingUpdate) (newId now : Int) :
    get_release_by_id none db = .ok none ∧
    add_listing none payload newId now db = .ok none ∧
    delete_release none db = .error ⟨400, "invalid release id"⟩ ∧
    update_listing none u now db = .error ⟨400, "invalid listing id"⟩ ∧
    delete_listing none db = .error ⟨400, "invalid listing id"⟩ ∧
    delete_store none db = .error ⟨400, "invalid store id"⟩ :=
  ⟨rfl, rfl, rfl, rfl, rfl, rfl⟩

/-! ### Aggregation-view lemmas -/

theorem le_foldl_max (t : Int) (ts : List Int) : t ≤ ts.foldl max t := by
  induction ts generalizing t with
  | nil => exact le_refl t
  | cons a ts' ih => exact le_trans (le_max_left t a) (ih (max t a))

theorem foldl_max_le (t : Int) (ts : List Int) :
    ∀ x ∈ ts, x ≤ ts.foldl max t := by
  induction ts generalizing t with
  | nil => simp
  | cons a ts' ih =>
    intro x hx
    rcases List.mem_cons.mp hx with rfl | hx
    · exact le_trans (le_max_right t x) (le_foldl_max (max t x) ts')
    · exact ih (max t a) x hx

theorem foldl_max_mem (t : Int) (ts : List Int) :
    ts.foldl max t = t ∨ ts.foldl max t ∈ ts := by
  induction ts generalizing t with
  | nil => exact Or.inl rfl
  | cons a ts' ih =>
    rw [List.foldl_cons]
    rcases ih (max t a) with h | h
    · rw [h]
      rcases max_choice t a with hm | hm
      · exact Or.inl hm
      · exact Or.inr (by rw [hm]; exact List.mem_cons_self a ts')
    · exact Or.inr (List.mem_cons_of_mem a h)

/-- `latestCollectedAt` is null exactly on an empty listing set. -/
theorem latestCollectedAt_eq_none_iff (ls : List Listing) :
    latestCollectedAt ls = none ↔ ls = [] := by
  cases ls <;> simp [latestCollectedAt]

/-- Having a maximum of the `collected_at` values, as a (decidable)
predicate: an upper bound that is attained. -/
def isMaxCollected (ls : List Listing) (v : Int) : Prop :=
  (∀ l ∈ ls, l.collected_at ≤ v) ∧ ∃ l ∈ ls, l.collected_at = v

instance (ls : List Listing) (v : Int) : Decidable (isMaxCollected ls v) := by
  unfold isMaxCollected; infer_instance

/-- A non-null `latestCollectedAt` is the maximum collection instant. -/
theorem latestCollectedAt_spec (ls : List Listing) (v : Int)
    (h : latestCollectedAt ls = some v) : isMaxCollected ls v := by
  cases ls with
  | nil => simp [latestCollectedAt] at h
  | cons a ts =>
    unfold latestCollectedAt at h
    simp only [List.map_cons, Option.some.injEq] at h
    subst h
    constructor
    · intro l hl
      rcases List.mem_cons.mp hl with rfl | hl
      · exact le_foldl_max l.collected_at (ts.map (fun l => l.collected_at))
      · exact foldl_max_le a.collected_at (ts.map (fun l => l.collected_at))
          l.collected_at (List.mem_map_of_mem (fun l => l.collected_at) hl)
    · rcases foldl_max_mem a.collected_at (ts.map (fun l => l.collected_at))
        with h | h
      · exact ⟨a, List.mem_cons_self a ts, h.symm⟩
      · obtain ⟨l, hl, hlv⟩ := List.mem_map.mp h
        exact ⟨l, List.mem_cons_of_mem a hl, hlv⟩

/-- `to_release_dict` exposes `latestCollectedAt` of the owned listings. -/
theorem to_release_dict_latest (r : Release) (db : Db) :
    (to_release_dict r db).latestCollectedAt =
      latestCollectedAt (db.releaseListings r.id) := rfl

/-- `to_release_dict` exposes the sorted listing rows. -/
theorem to_release_dict_listings (r : Release) (db : Db) :
    (to_release_dict r db).listings =
      (sortListings (db.releaseListings r.id)).map
        (fun l => to_listing_dict l db) := rfl

/-! ### C6 -/

/-- C6: the aggregation view's `latestCollectedAt` is null exactly when
the release owns no listings, and otherwise is the maximum of the owned
listings' `collected_at` values. -/
theorem C6_latest_collected_at (r : Release) (db : Db) :
    ((to_release_dict r db).latestCollectedAt = none ↔
      db.releaseListings r.id = []) ∧
    (∀ v, (to_release_dict r db).latestCollectedAt = some v →
      isMaxCollected (db.releaseListings r.id) v) := by
  rw [to_release_dict_latest]
  exact ⟨latestCollectedAt_eq_none_iff _,
    fun v hv => latestCollectedAt_spec _ v hv⟩

/-- C6 witness: on `dbW` release 1 owns the single listing `listingW`
(collected at 5), and 5 is indeed reported and maximal. -/
theorem C6_witness : isMaxCollected (dbW.releaseListings 1) 5 :=
  (C6_latest_collected_at releaseW dbW).2 5 rfl

/-! ### C5 -/

theorem prio_eq_zero_iff (s : String) :
    STATUS_PRIORITY s = 0 ↔ s = "PREORDER" := by
  unfold STATUS_PRIORITY
  split_ifs <;> simp_all

theorem prio_soldout (s : String)
    (hk : s = "PREORDER" ∨ s = "ON_SALE" ∨ s = "SOLD_OUT")
    (h2 : 2 ≤ STATUS_PRIORITY s) : s = "SOLD_OUT" := by
  rcases hk with h | h | h
  · rw [h] at h2; exact absurd h2 (by decide)
  · rw [h] at h2; exact absurd h2 (by decide)
  · exact h

theorem listingLe_prio (a b : Listing) (h : listingLe a b) :
    STATUS_PRIORITY a.status ≤ STATUS_PRIORITY b.status := by
  rcases h with h | ⟨h, -⟩
  · exact le_of_lt h
  · exact le_of_eq h

theorem listingLe_tie (a b : Listing) (h : listingLe a b)
    (hst : a.status = b.status) : b.collected_at ≤ a.collected_at := by
  rcases h with h | ⟨-, h⟩
  · rw [hst] at h; exact absurd h (lt_irrefl _)
  · exact h

/-- All statuses of a listing set are drawn from the three known values. -/
def knownStatuses (ls : List Listing) : Prop :=
  ∀ l ∈ ls, l.status = "PREORDER" ∨ l.status = "ON_SALE" ∨
    l.status = "SOLD_OUT"

instance (ls : List Listing) : Decidable (knownStatuses ls) := by
  unfold knownStatuses; infer_instance

/-- C5: the aggregation view sorts a release's listings with the key
(status priority ascending, `collected_at` descending): the sorted list is
a permutation of the owned listings, it is sorted under `listingLe`, its
status priorities are non-decreasing, ties in status are ordered by most
recent collection first, and — when every status is one of the three known
values — every PREORDER listing precedes every ON_SALE listing, which
precedes every SOLD_OUT listing. -/
theorem C5_sorting (r : Release) (db : Db) (ls : List Listing) :
    (to_release_dict r db).listings =
      (sortListings (db.releaseListings r.id)).map
        (fun l => to_listing_dict l db) ∧
    List.Perm (sortListings ls) ls ∧
    (sortListings ls).Sorted listingLe ∧
    (sortListings ls).Pairwise
      (fun a b => STATUS_PRIORITY a.status ≤ STATUS_PRIORITY b.status) ∧
    (sortListings ls).Pairwise
      (fun a b => a.status = b.status → b.collected_at ≤ a.collected_at) ∧
    (knownStatuses ls →
      (sortListings ls).Pairwise (fun a b =>
        (b.status = "PREORDER" → a.status = "PREORDER") ∧
        (a.status = "SOLD_OUT" → b.status = "SOLD_OUT"))) := by
  have hsorted : (sortListings ls).Sorted listingLe :=
    List.sorted_insertionSort listingLe ls
  have hperm : List.Perm (sortListings ls) ls :=
    List.perm_insertionSort listingLe ls
  refine ⟨to_release_dict_listings r db, hperm, hsorted, ?_, ?_, ?_⟩
  · exact List.Pairwise.imp (fun h => listingLe_prio _ _ h) hsorted
  · exact List.Pairwise.imp (fun h hst => listingLe_tie _ _ h hst) hsorted
  · intro hknown
    refine List.Pairwise.imp_of_mem ?_ hsorted
    intro a b _ hb hab
    constructor
    · intro hbp
      have h1 := listingLe_prio a b hab
      rw [hbp] at h1
      have h0 : STATUS_PRIORITY a.status = 0 :=
        Nat.le_antisymm (by simpa [STATUS_PRIORITY] using h1) (Nat.zero_le _)
      exact (prio_eq_zero_iff _).mp h0
    · intro has
      have h1 := listingLe_prio a b hab
      rw [has] at h1
      exact prio_soldout _ (hknown b (hperm.mem_iff.mp hb))
        (le_trans (by decide) h1)

/-- C5 witness: three listings, one of each status, with timestamps
chosen against the status order; the grouped pairwise property holds on
the concrete sorted output. -/
theorem C5_witness :
    (sortListings
      [{ id := 1, release_id := 1, source_slug := "sv",
         source_product_title := "a", url := "u", price := none,
         status := "SOLD_OUT", collected_at := 30 },
       { id := 2, release_id := 1, source_slug := "sv",
         source_product_title := "b", url := "u", price := some 10,
         status := "ON_SALE", collected_at := 20 },
       { id := 3, release_id := 1, source_slug := "sv",
         source_product_title := "c", url := "u", price := some 5,
         status := "PREORDER", collected_at := 10 }]).Pairwise (fun a b =>
      (b.status = "PREORDER" → a.status = "PREORDER") ∧
      (a.status = "SOLD_OUT" → b.status = "SOLD_OUT")) :=
  (C5_sorting releaseW dbW
    [{ id := 1, release_id := 1, source_slug := "sv",
       source_product_title := "a", url := "u", price := none,
       status := "SOLD_OUT", collected_at := 30 },
     { id := 2, release_id := 1, source_slug := "sv",
       source_product_title := "b", url := "u", price := some 10,
       status := "ON_SALE", collected_at := 20 },
     { id := 3, release_id := 1, source_slug := "sv",
       source_product_title := "c", url := "u", price := some 5,
       status := "PREORDER", collected_at := 10 }]).2.2.2.2.2 (by decide)

/-! ### C7 -/

/-- C7: `delete_store` fails 404 when the id is unknown; when `n ≥ 1`
listings reference the store's slug it fails with a 400 conflict whose
message carries exactly `n` (the number of listings whose `source_slug`
is the store's slug), touching nothing; with zero references it always
succeeds, removing only that store and leaving releases and listings
untouched. -/
theorem C7_delete_store_semantics (sid : Int) (db : Db) :
    (db.findStoreById sid = none →
      delete_store (some sid) db = .error ⟨404, "store not found"⟩) ∧
    (∀ store, db.findStoreById sid = some store →
      (0 < db.countListingsBySlug store.slug →
        delete_store (some sid) db = .error ⟨400,
          "store is referenced by " ++
            toString (db.countListingsBySlug store.slug) ++ " listings"⟩) ∧
      (db.countListingsBySlug store.slug = 0 →
        delete_store (some sid) db =
          .ok { db with
            stores := db.stores.filter (fun s => s.id ≠ sid) })) := by
  refine ⟨?_, ?_⟩
  · intro hs
    unfold delete_store
    simp only [hs]
  · intro store hs
    constructor
    · intro hcnt
      unfold delete_store
      simp only [hs]
      rw [if_pos hcnt]
    · intro hcnt
      unfold delete_store
      simp only [hs]
      rw [if_neg (by rw [hcnt]; exact lt_irrefl 0)]

/-- C7 witness: deleting store 1 of `dbW` (referenced by exactly one
listing) fails with the accurate count, and deleting an unreferenced
store succeeds without touching the listings. -/
theorem C7_witness :
    delete_store (some 1) dbW =
      .error ⟨400, "store is referenced by 1 listings"⟩ ∧
    delete_store (some 2)
        { dbW with stores := [storeW,
          { id := 2, name := "Gimbab Records", slug := "gr",
            icon_url := "gr.png" }] } =
      .ok { dbW with stores := [storeW] } :=
  ⟨by
    have h := ((C7_delete_store_semantics 1 dbW).2 storeW rfl).1 (by decide)
    simpa using h,
   by
    have h := ((C7_delete_store_semantics 2
      { dbW with stores := [storeW,
        { id := 2, name := "Gimbab Records", slug := "gr",
          icon_url := "gr.png" }] }).2
      { id := 2, name := "Gimbab Records", slug := "gr",
        icon_url := "gr.png" } rfl).2 (by decide)
    simpa using h⟩

/-! ### C8 -/

/-- C8: `delete_release` fails 404 when the release id is unknown, fails
with a 400 conflict when the release owns at least one listing (leaving
everything untouched), and succeeds exactly when the release exists and
owns no listings — in which case the cascade filter removes no listing at
all. -/
theorem C8_delete_release_semantics (rid : Int) (db : Db) :
    (db.findRelease rid = none →
      delete_release (some rid) db = .error ⟨404, "Release not found"⟩) ∧
    (∀ r, db.findRelease rid = some r →
      (db.releaseListings r.id ≠ [] →
        delete_release (some rid) db =
          .error ⟨400, "먼저 해당 릴리즈의 판매처를 삭제해 주세요."⟩) ∧
      (db.releaseListings r.id = [] →
        delete_release (some rid) db =
          .ok { db with
            releases := db.releases.filter (fun x => x.id ≠ rid) } ∧
        db.listings.filter (fun l => l.release_id ≠ r.id) = db.listings)) := by
  refine ⟨?_, ?_⟩
  · intro hr
    unfold delete_release
    simp only [hr]
  · intro r hr
    constructor
    · intro hne
      unfold delete_release
      simp only [hr]
      rw [if_pos (List.length_pos.mpr hne)]
    · intro hnil
      have hfilter : db.listings.filter (fun l => l.release_id ≠ r.id) =
          db.listings := by
        apply List.filter_eq_self.mpr
        intro a ha
        have hno : ∀ x ∈ db.listings, ¬(x.release_id = r.id) := by
          unfold Db.releaseListings at hnil
          simpa using List.filter_eq_nil_iff.mp hnil
        simpa using hno a ha
      refine ⟨?_, hfilter⟩
      unfold delete_release
      simp only [hr]
      rw [if_neg (by rw [hnil]; simp), hfilter]

/-- C8 witness: release 1 of `dbW` owns a listing, so its deletion fails
with the conflict; a listing-free release 2 deletes fine. -/
theorem C8_witness :
    delete_release (some 1) dbW =
      .error ⟨400, "먼저 해당 릴리즈의 판매처를 삭제해 주세요."⟩ ∧
    delete_release (some 2)
        { dbW with releases := [releaseW,
          { id := 2, artist_name := "C", album_title := "D",
            cover_image_url := none, created_at := 1 }] } =
      .ok { dbW with releases := [releaseW] } :=
  ⟨by
    have h := ((C8_delete_release_semantics 1 dbW).2 releaseW rfl).1 (by decide)
    simpa using h,
   by
    have h := (((C8_delete_release_semantics 2
      { dbW with releases := [releaseW,
        { id := 2, artist_name := "C", album_title := "D",
          cover_image_url := none, created_at := 1 }] }).2
      { id := 2, artist_name := "C", album_title := "D",
        cover_image_url := none, created_at := 1 } rfl).2 (by decide)).1
    simpa using h⟩

/-! ### Witnesses for the update-listing claims -/

/-- C3 witness: on `dbW`, a `SOLD_OUT` + price request both succeeds and
clears the price in spite of the requested 999. -/
theorem C3_witness :
    update_listing (some 1) updSO 80 dbW =
      .ok (updateListingFields updSO 80 listingW, { dbW with
        listings := dbW.listings.map
          (fun x => if x.id = 1 then updateListingFields updSO 80 listingW
            else x) }) ∧
    (updateListingFields updSO 80 listingW).price = none :=
  ⟨(C3_price_status_semantics 1 updSO 80 dbW listingW rfl (by decide)).1,
   (C3_price_status_semantics 1 updSO 80 dbW listingW rfl
      (by decide)).2.2.2.1 rfl rfl⟩

/-- C4 witness: the price change 100 → 200 on `listingW` bumps
`collected_at` to the update instant 50. -/
theorem C4_witness :
    ((listingW'.price ≠ listingW.price ∨ listingW'.status ≠ listingW.status) →
      listingW'.collected_at = 50) ∧
    ((listingW'.price = listingW.price ∧ listingW'.status = listingW.status) →
      listingW' = listingW) :=
  C4_collected_at_bump_iff 1 updW 50 dbW listingW listingW' dbW' rfl rfl

/-- C10 witness: replaying `updW` at instant 60 on the state produced at
instant 50 returns the same listing and the same state. -/
theorem C10_witness :
    update_listing (some 1) updW 60 dbW' = .ok (listingW', dbW') :=
  C10_update_listing_idempotent 1 updW 50 60 dbW listingW' dbW' rfl

end VinylAlert
